import Mathlib

/-!
Verification of `check_format.py` (repository sikattin/convert_encoding_ext).

The script defines a class `CheckFormat` whose methods enumerate the files of
a directory (`_get_file_names`), query the external `nkf` detector for each
file's encoding (`check_encoding`), convert non-conforming files in place
(`change_encoding`) and retag `.txt` files as `.csv` (`change_format_to_csv`).
The development below is a shallow embedding of those methods with Python 3
semantics, including the dynamic errors the source actually raises:

* `__init__` (line 44) calls `setup_logger` as a bare name; the module has no
  such global, so every construction raises `NameError`.
* `change_format_to_csv` (line 132) builds the rename target with
  `({}).format` applied to the string `.csv`; an empty `dict` literal has no
  `format` attribute, so `AttributeError` is raised before `os.rename` runs.
* `check_encoding` (line 99) names `CalledProcessError` in its `except`
  clause, but the name was never imported; when the detector exits non-zero
  the `except` clause itself raises `NameError`.
* `change_encoding` (line 108) calls `startswith` on the `bytes` value
  returned by `check_output` with a `str` argument, which raises `TypeError`
  in Python 3 before any comparison happens.
* `_get_file_names` (line 145) tests `os.path.isfile(dir_path + file)`,
  concatenating without a path separator.

Machine strings are modelled as Lean `String`; the `bytes` values returned by
`check_output` get their own wrapper type so that the `bytes` / `str`
distinction the source trips over stays visible.
-/

/-- Errors surfaced by the script.  The first six are the Python exceptions
the code can actually raise; `renameCollisionError` is the specification's
error vocabulary (spec section 7), included so that theorems can state that
the code never produces it. -/
inductive PyError where
  | nameError (missing : String)
  | attributeError (msg : String)
  | typeError (msg : String)
  | indexError
  | fileNotFoundError (path : String)
  | calledProcessError (returncode : Nat) (cmd : List String)
  | renameCollisionError (src : String) (dst : String)
deriving DecidableEq

/-- Message of the `AttributeError` raised by `({}).format(...)`. -/
def attrMsg : String := "dict object has no attribute format"

/-- Message of the `TypeError` raised by `bytes.startswith(str)`. -/
def typeMsg : String := "startswith first arg must be bytes or a tuple of bytes, not str"

/-- The `bytes` value returned by `subprocess.check_output`. -/
structure PyBytes where
  bytes : String
deriving DecidableEq

/-- A flat directory: file names paired with file contents, as seen by the
rename pass (the script passes bare names to `os.rename`). -/
abbrev Dir := List (String × String)

/-- Evaluating `re.compile(".+\\.txt$").search(fi)` to a Boolean: the pattern
matches exactly the strings that end in `.txt` with at least one preceding
character. -/
def txtSearch (s : String) : Bool :=
  ".txt".data.isSuffixOf s.data && decide (5 ≤ s.data.length)

/-- Root part of `os.path.splitext` for a bare file name: the part before the
last dot, unless every character before that dot is itself a dot (CPython
treats leading dots as part of the root). -/
def splitextRoot (s : String) : String :=
  let cs := s.data
  if cs.contains '.' then
    let sep := cs.length - 1 - cs.reverse.indexOf '.'
    if (cs.take sep).any (fun c => c != '.') then String.mk (cs.take sep) else s
  else s

/-- Evaluating `({}).format(arg)` in Python: an empty `dict` literal has no
attribute `format`, so the expression raises `AttributeError` (source line
132) instead of producing a string. -/
def dictFormat (_arg : String) : Except PyError String :=
  .error (.attributeError attrMsg)

/-- The rename target the source intends on line 132: `splitext` root plus
`.csv`.  The code never reaches the rename because `dictFormat` raises
first; this name is used to state collision scenarios. -/
def retagTarget (src : String) : String :=
  splitextRoot src ++ ".csv"

/-- `os.rename src dst` inside one directory: `FileNotFoundError` when `src`
is absent, otherwise the entry is renamed, silently replacing any existing
`dst` (POSIX overwrite semantics — the source has no collision guard). -/
def osRename (d : Dir) (src dst : String) : Except PyError Dir :=
  match d.lookup src with
  | none => .error (.fileNotFoundError src)
  | some c => .ok ((d.filter (fun e => e.1 != src && e.1 != dst)) ++ [(dst, c)])

/-- `CheckFormat.change_format_to_csv` (source lines 122-135): for each stored
file name matching `.+\\.txt$` the code computes `splitext`, then evaluates
`file_name + ({}).format(".csv")` — which raises `AttributeError` before
`os.rename` is called — and non-matching names fall into `else: pass`.
Returns the directory as it stands when the loop ends or the error is raised,
together with the uncaught error if any. -/
def change_format_to_csv (d : Dir) : List String → Dir × Option PyError
  | [] => (d, none)
  | fi :: rest =>
    if txtSearch fi then
      match dictFormat ".csv" with
      | .error e => (d, some e)
      | .ok suffix2 =>
        match osRename d fi (splitextRoot fi ++ suffix2) with
        | .error e => (d, some e)
        | .ok d2 => change_format_to_csv d2 rest
    else
      change_format_to_csv d rest

/-- Recogniser for the specification's `RenameCollisionError`. -/
def isRenameCollision : Option PyError → Bool
  | some (.renameCollisionError _ _) => true
  | _ => false

/-- Whitespace characters recognised by Python's `str.split()` — exactly the
characters on which `str.isspace()` holds: the ASCII whitespace `\t \n \x0b
\x0c \x0d` and space, the separator controls `\x1c`-`\x1f`, next line
`\x85`, no-break space `\xa0`, Ogham space mark `\u1680`, the quad/space
family `\u2000`-`\u200a`, line separator `\u2028`, paragraph separator
`\u2029`, narrow no-break space `\u202f`, medium mathematical space
`\u205f` and ideographic space `\u3000`. -/
def pyWs (c : Char) : Bool :=
  c == '\t' || c == '\n' || c == '\x0b' || c == '\x0c' || c == '\x0d' ||
  c == '\x1c' || c == '\x1d' || c == '\x1e' || c == '\x1f' || c == ' ' ||
  c == '\x85' || c == '\xa0' || c == '\u1680' ||
  c == '\u2000' || c == '\u2001' || c == '\u2002' || c == '\u2003' ||
  c == '\u2004' || c == '\u2005' || c == '\u2006' || c == '\u2007' ||
  c == '\u2008' || c == '\u2009' || c == '\u200a' ||
  c == '\u2028' || c == '\u2029' || c == '\u202f' || c == '\u205f' || c == '\u3000'

/-- Accumulator loop behind `str.split()`: splits the character list at
`pyWs` characters, never producing empty pieces. -/
def wsSplitGo (acc : List Char) : List Char → List (List Char)
  | [] => if acc = [] then [] else [acc.reverse]
  | c :: cs =>
    if pyWs c then
      if acc = [] then wsSplitGo [] cs else acc.reverse :: wsSplitGo [] cs
    else
      wsSplitGo (c :: acc) cs

/-- Python `str.split()` with no argument: split on runs of whitespace and
drop empty pieces (source line 91, `cmd.split()`). -/
def pySplit (s : String) : List String :=
  (wsSplitGo [] s.data).map String.mk

/-- Oracle for the external detector: `check_output(cmd_list)` receives the
whole token list (program name, flag, then the file-name tokens) and either
returns the detector's output bytes or fails with a non-zero exit status. -/
abbrev Detector := List String → Except Nat PyBytes

/-- `CheckFormat.check_encoding` (source lines 85-101): for each stored file
name the command string `'nkf -g ' + file` is built and split on whitespace;
token 2 of the split is recorded as the file name; `check_output` runs on the
token list and `(file_name, output)` is appended to `cmd_ret`.  When the
token list has no index 2 (an all-whitespace name) Python raises
`IndexError`; when the detector exits non-zero, `check_output` raises
`CalledProcessError`, and the `except CalledProcessError` clause then raises
`NameError` because that name was never imported (line 10 imports only
`check_output` and `check_call`).  Returns the list of `check_output`
invocations made and either the accumulated pairs or the uncaught error. -/
def check_encoding (det : Detector) :
    List String → List (List String) × Except PyError (List (String × PyBytes))
  | [] => ([], .ok [])
  | file :: rest =>
    let cmd_list := pySplit ("nkf -g " ++ file)
    match cmd_list[2]? with
    | none => ([], .error .indexError)
    | some file_name =>
      match det cmd_list with
      | .error _ => ([cmd_list], .error (.nameError "CalledProcessError"))
      | .ok out =>
        let r := check_encoding det rest
        (cmd_list :: r.1,
          match r.2 with
          | .error e => .error e
          | .ok pairs => .ok ((file_name, out) :: pairs))

/-- Calling `startswith` on a Python 3 `bytes` value with a `str` argument
(source line 108): raises `TypeError` before any comparison is made. -/
def bytesStartswithStr (_b : PyBytes) (_s : String) : Except PyError Bool :=
  .error (.typeError typeMsg)

/-- `check_call(cmd)` where `cmd` is the whole command string and no
`shell=True` is given (source line 114): Python treats the string as the
program name, and no program of that name exists. -/
def check_call_str (cmd : String) : Except PyError Nat :=
  .error (.fileNotFoundError cmd)

/-- `CheckFormat.change_encoding` (source lines 103-120): for each recorded
`(file, output)` pair the code evaluates
`ret_tuple[1].startswith('Shift_JIS')` — a `bytes` / `str` mismatch that
raises `TypeError` at the first pair.  The dead continuation is kept: on a
false prefix test the converter command string would be passed to
`check_call` (whose failure would again surface as `NameError`, the
`except CalledProcessError` clause naming an unimported identifier), and on
a true test the `else: pass` branch skips the file.  Returns the attempted
converter commands and the outcome. -/
def change_encoding : List (String × PyBytes) → List String × Except PyError Unit
  | [] => ([], .ok ())
  | ret_tuple :: rest =>
    match bytesStartswithStr ret_tuple.2 "Shift_JIS" with
    | .error e => ([], .error e)
    | .ok b =>
      if b then
        change_encoding rest
      else
        let cmd := "nkf -s --overwrite " ++ ret_tuple.1
        match check_call_str cmd with
        | .error _ => ([cmd], .error (.nameError "CalledProcessError"))
        | .ok _ =>
          let r := change_encoding rest
          (cmd :: r.1, r.2)

/-- Kind of a filesystem entry, for the enumeration model. -/
inductive EKind where
  | file
  | dir
deriving DecidableEq, BEq

/-- A filesystem entry addressed by its absolute path. -/
structure FsEntry where
  path : String
  kind : EKind
deriving DecidableEq

/-- A filesystem: a set of entries addressed by absolute path. -/
abbrev Fsys := List FsEntry

/-- Consume `pre` from the front of `s`, returning the remainder. -/
def pathRest : List Char → List Char → Option (List Char)
  | [], rest => some rest
  | _ :: _, [] => none
  | a :: as, b :: bs => if a = b then pathRest as bs else none

/-- The directory path with a trailing separator, as the operating system
resolves it when listing. -/
def withSlash (dp : String) : String :=
  if "/".data.isSuffixOf dp.data then dp else dp ++ "/"

/-- `os.listdir dp`: the separator-free names of the entries directly inside
directory `dp`; the operating system accepts `dp` with or without a trailing
separator. -/
def listdir (fs : Fsys) (dp : String) : List String :=
  fs.filterMap (fun e =>
    match pathRest (withSlash dp).data e.path.data with
    | some n => if !n.isEmpty && !n.contains '/' then some (String.mk n) else none
    | none => none)

/-- `os.path.isfile p`: whether a regular file exists at path `p`. -/
def isfile (fs : Fsys) (p : String) : Bool :=
  fs.any (fun e => e.path == p && e.kind == EKind.file)

/-- `CheckFormat._get_file_names` (source lines 137-146): keep the entries
`f` of `os.listdir(dir_path)` satisfying `os.path.isfile(dir_path + f)` —
the path is concatenated WITHOUT a separator, exactly as in the source. -/
def get_file_names (fs : Fsys) (dp : String) : List String :=
  (listdir fs dp).filter (fun f => isfile fs (dp ++ f))

/-- The module-level global names of `check_format.py`: its imports, the two
command constants and the class itself.  `setup_logger` and
`_get_file_names` are attributes of the class, not module globals. -/
def moduleGlobals : List String :=
  ["os", "sys", "getLogger", "StreamHandler", "Formatter", "WARNING", "DEBUG",
    "INFO", "check_output", "check_call", "NKF_CMD_CHKENCODE", "NKF_CMD_CONVERT",
    "CheckFormat"]

/-- Whether a bare name inside a method body resolves (module global or
builtin; neither `setup_logger` nor `_get_file_names` is a builtin). -/
def lookupGlobal (n : String) : Bool :=
  moduleGlobals.contains n

/-- The state of a `CheckFormat` object: the fields assigned by `__init__`
(source lines 35-41) before the failing bare-name call. -/
structure CheckFormatObj where
  dir_path : String
  loglevel : String
  file_names : List String
  cmd_ret : List (String × PyBytes)

/-- `CheckFormat.__init__` (source lines 28-46): after the four field
assignments the body evaluates the bare name `setup_logger`, which resolves
neither as a module global nor as a builtin, so every construction raises
`NameError` (the following bare `_get_file_names()` call is unreachable as
written and would fail the same way). -/
def init (dir_path loglevel : String) : Except PyError CheckFormatObj :=
  let self : CheckFormatObj :=
    { dir_path := dir_path, loglevel := loglevel, file_names := [], cmd_ret := [] }
  if lookupGlobal "setup_logger" then
    .ok self
  else
    .error (.nameError "setup_logger")

/-- Observable trace of one run: final directory, the `check_output`
invocations of the inspection pass, the converter commands of the conversion
pass, and the first uncaught error. -/
structure RunTrace where
  dir : Dir
  detCalls : List (List String)
  convCalls : List String
  err : Option PyError
deriving DecidableEq

/-- The pass sequence of the `__main__` block (source lines 158-165) after
construction: `change_format_to_csv()`, then `check_encoding()`, then
`change_encoding()`, strictly in that order, an uncaught exception aborting
the run.  The stored file-name list is never modified between the passes
(no code in the script updates `self._file_names` after a rename). -/
def run_passes (d : Dir) (files : List String) (det : Detector) : RunTrace :=
  match change_format_to_csv d files with
  | (d1, some e) => ⟨d1, [], [], some e⟩
  | (d1, none) =>
    match check_encoding det files with
    | (calls, .error e) => ⟨d1, calls, [], some e⟩
    | (calls, .ok cmd_ret) =>
      match change_encoding cmd_ret with
      | (ccalls, .error e) => ⟨d1, calls, ccalls, some e⟩
      | (ccalls, .ok _) => ⟨d1, calls, ccalls, none⟩

/-- The `__main__` block itself (source lines 148-165): argument parsing,
then `CheckFormat(dir_path, loglevel)`, then the three passes.  Because
`init` always raises, the passes are never reached through this entry
point. -/
def mainEntry (dp ll : String) (d : Dir) (det : Detector) : RunTrace :=
  match init dp ll with
  | .error e => ⟨d, [], [], some e⟩
  | .ok self => run_passes d self.file_names det

theorem cfc_fst (d : Dir) (files : List String) :
    (change_format_to_csv d files).1 = d := by
  induction files with
  | nil => rfl
  | cons fi rest ih =>
    cases hfi : txtSearch fi with
    | false => simpa [change_format_to_csv, hfi] using ih
    | true => simp [change_format_to_csv, hfi, dictFormat]

theorem cfc_err_of_match : ∀ (files : List String) (d : Dir),
    (∃ f ∈ files, txtSearch f = true) →
    (change_format_to_csv d files).2 = some (PyError.attributeError attrMsg) := by
  intro files
  induction files with
  | nil =>
    intro d h
    rcases h with ⟨f, hf, _⟩
    exact absurd hf (List.not_mem_nil f)
  | cons fi rest ih =>
    intro d h
    cases hfi : txtSearch fi with
    | true => simp [change_format_to_csv, hfi, dictFormat]
    | false =>
      rcases h with ⟨f, hf, htf⟩
      rcases List.mem_cons.mp hf with heq | hmem
      · subst heq
        rw [hfi] at htf
        exact Bool.noConfusion htf
      · simpa [change_format_to_csv, hfi] using ih d ⟨f, hmem, htf⟩

/-- Claim C10: whenever at least one stored file name matches `.+\\.txt$`,
`change_format_to_csv` raises `AttributeError` (from evaluating
`({}).format(".csv")`) before performing any rename, so no file is renamed:
the directory is returned unchanged. -/
theorem c10_attribute_error (d : Dir) (files : List String)
    (h : ∃ f ∈ files, txtSearch f = true) :
    (change_format_to_csv d files).2 = some (PyError.attributeError attrMsg) ∧
    (change_format_to_csv d files).1 = d :=
  ⟨cfc_err_of_match files d h, cfc_fst d files⟩

/-- Witness for C10 at the working set `["a.txt"]` over a directory holding
`a.txt`. -/
theorem c10_witness :
    (∃ f ∈ (["a.txt"] : List String), txtSearch f = true) ∧
    ((change_format_to_csv [("a.txt", "T")] ["a.txt"]).2 =
        some (PyError.attributeError attrMsg) ∧
      (change_format_to_csv [("a.txt", "T")] ["a.txt"]).1 = [("a.txt", "T")]) :=
  ⟨by decide, c10_attribute_error [("a.txt", "T")] ["a.txt"] (by decide)⟩

/-- Claim C1, counterexample: with `a.txt` and `a.csv` both present, the
retagging operation does fail and `a.csv` keeps its content, but the error is
the `AttributeError` from `({}).format(".csv")`, not the specified
`RenameCollisionError` — no collision check exists in the code. -/
theorem c1_counterexample :
    (change_format_to_csv [("a.txt", "T"), ("a.csv", "C")] ["a.csv", "a.txt"]).2 =
      some (PyError.attributeError attrMsg) ∧
    isRenameCollision
      (change_format_to_csv [("a.txt", "T"), ("a.csv", "C")] ["a.csv", "a.txt"]).2 = false ∧
    (change_format_to_csv [("a.txt", "T"), ("a.csv", "C")] ["a.csv", "a.txt"]).1.lookup
      "a.csv" = some "C" := by
  refine ⟨rfl, rfl, rfl⟩

/-- Claim C1, amended: when the working set contains a `.txt` file whose
retag target already exists in the directory, the operation fails — with an
`AttributeError` raised while building the target name, not with a
`RenameCollisionError` — before any rename, and the pre-existing target
file's content is left unchanged. -/
theorem c1_amended (d : Dir) (files : List String) (src : String) (c : String)
    (hsrc : src ∈ files) (htxt : txtSearch src = true)
    (hcol : d.lookup (retagTarget src) = some c) :
    (change_format_to_csv d files).2 = some (PyError.attributeError attrMsg) ∧
    isRenameCollision (change_format_to_csv d files).2 = false ∧
    (change_format_to_csv d files).1.lookup (retagTarget src) = some c := by
  have herr := cfc_err_of_match files d ⟨src, hsrc, htxt⟩
  refine ⟨herr, ?_, ?_⟩
  · rw [herr]; rfl
  · rw [cfc_fst d files]; exact hcol

/-- Witness for the amended C1 on the directory holding `a.txt` (content `T`)
and `a.csv` (content `C`). -/
theorem c1_amended_witness :
    ("a.txt" ∈ (["a.csv", "a.txt"] : List String) ∧ txtSearch "a.txt" = true ∧
      ([("a.txt", "T"), ("a.csv", "C")] : Dir).lookup (retagTarget "a.txt") = some "C") ∧
    ((change_format_to_csv [("a.txt", "T"), ("a.csv", "C")] ["a.csv", "a.txt"]).2 =
        some (PyError.attributeError attrMsg) ∧
      isRenameCollision
        (change_format_to_csv [("a.txt", "T"), ("a.csv", "C")] ["a.csv", "a.txt"]).2 = false ∧
      (change_format_to_csv [("a.txt", "T"), ("a.csv", "C")] ["a.csv", "a.txt"]).1.lookup
        (retagTarget "a.txt") = some "C") :=
  ⟨⟨by decide, by decide, by decide⟩,
    c1_amended [("a.txt", "T"), ("a.csv", "C")] ["a.csv", "a.txt"] "a.txt" "C"
      (by decide) (by decide) (by decide)⟩

/-- Claim C2: evaluation at the failing input.  On the working set
`["a.txt"]` the retagging operation raises `AttributeError` before any
rename: `a.txt` keeps its name and content and no `a.csv` is created —
the claimed rename and record update never happen (and no code anywhere
updates the stored name list). -/
theorem c2_no_rename_on_txt :
    change_format_to_csv [("a.txt", "T")] ["a.txt"] =
      ([("a.txt", "T")], some (PyError.attributeError attrMsg)) ∧
    ([("a.txt", "T")] : Dir).lookup "a.csv" = none := by
  refine ⟨rfl, rfl⟩

/-- Claim C6: extension retagging is idempotent.  Running
`change_format_to_csv` a second time on the directory produced by a first
run gives the same result as the first run — in the source this holds
because the pass never modifies the directory at all (it aborts at the first
matching file before renaming, or matches nothing). -/
theorem c6_idempotent (d : Dir) (files : List String) :
    change_format_to_csv (change_format_to_csv d files).1 files =
      change_format_to_csv d files := by
  rw [cfc_fst d files]

theorem wsSplitGo_no_ws : ∀ (cs : List Char) (acc : List Char),
    (∀ c ∈ cs, pyWs c = false) →
    wsSplitGo acc cs = if acc.reverse ++ cs = [] then [] else [acc.reverse ++ cs] := by
  intro cs
  induction cs with
  | nil =>
    intro acc _
    by_cases ha : acc = [] <;> simp [wsSplitGo, ha]
  | cons c cs ih =>
    intro acc h
    have hc : pyWs c = false := h c (List.mem_cons_self c cs)
    have hcs : ∀ x ∈ cs, pyWs x = false := fun x hx => h x (List.mem_cons_of_mem c hx)
    have hstep : wsSplitGo acc (c :: cs) = wsSplitGo (c :: acc) cs := by
      simp [wsSplitGo, hc]
    rw [hstep, ih (c :: acc) hcs]
    simp [List.append_assoc]

theorem pySplit_cmd (f : String) (hne : f.data ≠ [])
    (hws : ∀ c ∈ f.data, pyWs c = false) :
    pySplit ("nkf -g " ++ f) = ["nkf", "-g", f] := by
  have h1 : pySplit ("nkf -g " ++ f) =
      (['n', 'k', 'f'] :: ['-', 'g'] :: wsSplitGo [] f.data).map String.mk := rfl
  have h2 : wsSplitGo ([] : List Char) f.data = [f.data] := by
    rw [wsSplitGo_no_ws f.data [] hws]
    simp [hne]
  rw [h1, h2]
  rfl

theorem check_encoding_calls : ∀ (files : List String) (det : Detector),
    (∀ f ∈ files, f.data ≠ [] ∧ ∀ c ∈ f.data, pyWs c = false) →
    ∀ c ∈ (check_encoding det files).1, ∃ f ∈ files, c = ["nkf", "-g", f] := by
  intro files
  induction files with
  | nil =>
    intro det _ c hc
    simp [check_encoding] at hc
  | cons fi rest ih =>
    intro det h c hc
    have hfi := h fi (List.mem_cons_self fi rest)
    have hcmd : pySplit ("nkf -g " ++ fi) = ["nkf", "-g", fi] :=
      pySplit_cmd fi hfi.1 hfi.2
    rw [check_encoding, hcmd] at hc
    cases hdet : det ["nkf", "-g", fi] with
    | error code =>
      rw [hdet] at hc
      simp at hc
      exact ⟨fi, List.mem_cons_self fi rest, hc⟩
    | ok out =>
      rw [hdet] at hc
      simp at hc
      rcases hc with hc | hc
      · exact ⟨fi, List.mem_cons_self fi rest, hc⟩
      · have hrest : ∀ f ∈ rest, f.data ≠ [] ∧ ∀ c ∈ f.data, pyWs c = false :=
          fun f hf => h f (List.mem_cons_of_mem fi hf)
        rcases ih det hrest c hc with ⟨f, hf, hcf⟩
        exact ⟨f, List.mem_cons_of_mem fi hf, hcf⟩

theorem change_encoding_fst_nil (l : List (String × PyBytes)) :
    (change_encoding l).1 = [] := by
  cases l with
  | nil => rfl
  | cons a r => rfl

/-- Claim C5: evaluation at the failing input.  When the detector exits
non-zero for `bad.bin`, `check_encoding` does not surface a
`DetectionError` (nor the `CalledProcessError` the source means to
re-raise): the `except CalledProcessError` clause itself raises
`NameError`, because the name was never imported, so the per-file error with
its file name and cause is replaced by an unrelated error. -/
theorem c5_nameerror_on_detector_failure :
    check_encoding (fun _ => .error 1) ["bad.bin"] =
      ([["nkf", "-g", "bad.bin"]], .error (PyError.nameError "CalledProcessError")) := rfl

/-- Claim C8, counterexample: for the file name `a b.txt`, which contains a
space, the inspection pass splits the command string on whitespace, invokes
the detector with the two halves as separate arguments and records the
output under the name `a` — not under `a b.txt` — so per-file attribution
fails for names with whitespace. -/
theorem c8_counterexample :
    check_encoding (fun _ => .ok (PyBytes.mk "UTF-8")) ["a b.txt"] =
      ([["nkf", "-g", "a", "b.txt"]], .ok [("a", PyBytes.mk "UTF-8")]) ∧
    "a" ≠ "a b.txt" := by
  refine ⟨rfl, by decide⟩

/-- Claim C8, amended: for working sets whose file names are nonempty and
whitespace-free, the inspection pass invokes the detector exactly once per
file as `nkf -g <file>`, in working-set order, and records the detector's
output paired with that same file name — exact per-file attribution.  For
names containing whitespace the name is tokenised instead (see the
counterexample). -/
theorem c8_amended (det : Detector) (out : String → PyBytes) :
    ∀ files : List String,
      (∀ f ∈ files, f.data ≠ [] ∧ ∀ c ∈ f.data, pyWs c = false) →
      (∀ f ∈ files, det ["nkf", "-g", f] = .ok (out f)) →
      check_encoding det files =
        (files.map (fun f => ["nkf", "-g", f]),
          .ok (files.map (fun f => (f, out f)))) := by
  intro files
  induction files with
  | nil => intro _ _; rfl
  | cons fi rest ih =>
    intro h hdet
    have hfi := h fi (List.mem_cons_self fi rest)
    have hcmd : pySplit ("nkf -g " ++ fi) = ["nkf", "-g", fi] :=
      pySplit_cmd fi hfi.1 hfi.2
    have hrest : check_encoding det rest =
        (rest.map (fun f => ["nkf", "-g", f]), .ok (rest.map (fun f => (f, out f)))) :=
      ih (fun f hf => h f (List.mem_cons_of_mem fi hf))
        (fun f hf => hdet f (List.mem_cons_of_mem fi hf))
    rw [check_encoding, hcmd, hdet fi (List.mem_cons_self fi rest), hrest]
    rfl

/-- Witness for the amended C8 on the working set `["a.txt"]` with a
detector that reports `Shift_JIS`. -/
theorem c8_amended_witness :
    ((∀ f ∈ (["a.txt"] : List String), f.data ≠ [] ∧ ∀ c ∈ f.data, pyWs c = false) ∧
      (∀ f ∈ (["a.txt"] : List String),
        (fun _ => Except.ok (PyBytes.mk "Shift_JIS") : Detector) ["nkf", "-g", f] =
          .ok ((fun _ => PyBytes.mk "Shift_JIS") f))) ∧
    check_encoding (fun _ => Except.ok (PyBytes.mk "Shift_JIS")) ["a.txt"] =
      ([["nkf", "-g", "a.txt"]], .ok [("a.txt", PyBytes.mk "Shift_JIS")]) :=
  ⟨⟨by decide, fun _ _ => rfl⟩,
    c8_amended (fun _ => Except.ok (PyBytes.mk "Shift_JIS"))
      (fun _ => PyBytes.mk "Shift_JIS") ["a.txt"] (by decide) (fun _ _ => rfl)⟩

/-- Claim C4: evaluation at the failing input.  The conversion pass never
reaches its comparison: on any non-empty report — whether the recorded
encoding differs from `Shift_JIS` (first conjunct) or equals it (second
conjunct) — `change_encoding` raises `TypeError` at the first record,
because `check_output` returned `bytes` and `startswith` is given a `str`,
so the claimed case-sensitive comparison is never made and the converter is
never invoked (the invocation list is empty). -/
theorem c4_typeerror_before_compare :
    change_encoding [("a.csv", PyBytes.mk "UTF-8")] =
      ([], .error (PyError.typeError typeMsg)) ∧
    change_encoding [("b.csv", PyBytes.mk "Shift_JIS")] =
      ([], .error (PyError.typeError typeMsg)) := by
  refine ⟨rfl, rfl⟩

/-- Claim C3: for every choice of `dir_path` and `loglevel`, constructing
`CheckFormat` raises `NameError` on the bare name `setup_logger`, so no
fully constructed instance exists and the `__main__` entry point never
reaches any pass: the directory is untouched and no external tool is ever
invoked. -/
theorem c3_init_name_error (dp ll : String) (d : Dir) (det : Detector) :
    init dp ll = .error (.nameError "setup_logger") ∧
    mainEntry dp ll d det = ⟨d, [], [], some (.nameError "setup_logger")⟩ :=
  ⟨rfl, rfl⟩

/-- Claim C9: evaluation at the failing input.  For `dir_path = "/d"` given
without a trailing separator, over a filesystem whose directory `/d` contains
the subdirectory `x` while an unrelated regular file sits at the sibling
path `/dx`, the enumeration includes the subdirectory entry `x` — the test
`isfile (dir_path ++ name)` checks `/dx` instead of `/d/x`.  With the
trailing separator the same filesystem yields no entry. -/
theorem c9_subdir_included :
    get_file_names [⟨"/d/x", EKind.dir⟩, ⟨"/dx", EKind.file⟩] "/d" = ["x"] ∧
    get_file_names [⟨"/d/x", EKind.dir⟩, ⟨"/dx", EKind.file⟩] "/d/" = [] ∧
    FsEntry.mk "/d/x" EKind.dir ∈ ([⟨"/d/x", EKind.dir⟩, ⟨"/dx", EKind.file⟩] : Fsys) := by
  refine ⟨rfl, rfl, by decide⟩

theorem run_passes_eq1 (d : Dir) (files : List String) (det : Detector)
    (d1 : Dir) (e : PyError) (h1 : change_format_to_csv d files = (d1, some e)) :
    run_passes d files det = ⟨d1, [], [], some e⟩ := by
  unfold run_passes
  simp only [h1]

theorem run_passes_eq2 (d : Dir) (files : List String) (det : Detector)
    (d1 : Dir) (calls : List (List String)) (e : PyError)
    (h1 : change_format_to_csv d files = (d1, none))
    (h2 : check_encoding det files = (calls, .error e)) :
    run_passes d files det = ⟨d1, calls, [], some e⟩ := by
  unfold run_passes
  simp only [h1, h2]

theorem run_passes_eq3 (d : Dir) (files : List String) (det : Detector)
    (d1 : Dir) (calls : List (List String)) (cmd_ret : List (String × PyBytes))
    (ccalls : List String) (e : PyError)
    (h1 : change_format_to_csv d files = (d1, none))
    (h2 : check_encoding det files = (calls, .ok cmd_ret))
    (h3 : change_encoding cmd_ret = (ccalls, .error e)) :
    run_passes d files det = ⟨d1, calls, ccalls, some e⟩ := by
  unfold run_passes
  simp only [h1, h2, h3]

theorem run_passes_eq4 (d : Dir) (files : List String) (det : Detector)
    (d1 : Dir) (calls : List (List String)) (cmd_ret : List (String × PyBytes))
    (ccalls : List String) (u : Unit)
    (h1 : change_format_to_csv d files = (d1, none))
    (h2 : check_encoding det files = (calls, .ok cmd_ret))
    (h3 : change_encoding cmd_ret = (ccalls, .ok u)) :
    run_passes d files det = ⟨d1, calls, ccalls, none⟩ := by
  unfold run_passes
  simp only [h1, h2, h3]

theorem run_passes_cases (d : Dir) (files : List String) (det : Detector) :
    (run_passes d files det).dir = d ∧
    (run_passes d files det).convCalls = [] ∧
    ((run_passes d files det).detCalls = [] ∨
      (run_passes d files det).detCalls = (check_encoding det files).1) := by
  rcases hcf : change_format_to_csv d files with ⟨d1, oe⟩
  have hd1 : d1 = d := by
    have h := cfc_fst d files
    rw [hcf] at h
    exact h
  rw [hd1] at hcf
  cases oe with
  | some e =>
    rw [run_passes_eq1 d files det d e hcf]
    exact ⟨rfl, rfl, Or.inl rfl⟩
  | none =>
    rcases hce : check_encoding det files with ⟨calls, res⟩
    cases res with
    | error e =>
      rw [run_passes_eq2 d files det d calls e hcf hce]
      exact ⟨rfl, rfl, Or.inr rfl⟩
    | ok cmd_ret =>
      rcases hch : change_encoding cmd_ret with ⟨ccalls, cres⟩
      have hcc : ccalls = [] := by
        have h := change_encoding_fst_nil cmd_ret
        rw [hch] at h
        exact h
      subst hcc
      cases cres with
      | error e =>
        rw [run_passes_eq3 d files det d calls cmd_ret [] e hcf hce hch]
        exact ⟨rfl, rfl, Or.inr rfl⟩
      | ok u =>
        rw [run_passes_eq4 d files det d calls cmd_ret [] u hcf hce hch]
        exact ⟨rfl, rfl, Or.inr rfl⟩

/-- Claim C7: in the pass sequence of `__main__`, the rename pass runs and
finishes (here: without renaming anything, since it aborts at the first
`.txt` name before any rename) before the inspection or conversion pass
reads any file path; for whitespace-free working sets drawn from the
directory, every detector invocation names a file that is current in the
post-rename-pass directory — no stale pre-rename name is ever read — and
the conversion pass performs no converter invocation at all. -/
theorem c7_ordering (d : Dir) (files : List String) (det : Detector)
    (hws : ∀ f ∈ files, f.data ≠ [] ∧ ∀ c ∈ f.data, pyWs c = false)
    (hin : ∀ f ∈ files, (d.lookup f).isSome = true) :
    (run_passes d files det).dir = d ∧
    (∀ c ∈ (run_passes d files det).detCalls, ∃ f ∈ files,
      c = ["nkf", "-g", f] ∧ (((run_passes d files det).dir).lookup f).isSome = true) ∧
    (run_passes d files det).convCalls = [] := by
  obtain ⟨hdir, hconv, hdet⟩ := run_passes_cases d files det
  refine ⟨hdir, ?_, hconv⟩
  intro c hc
  have hsub : ∃ f ∈ files, c = ["nkf", "-g", f] := by
    cases hdet with
    | inl h =>
      rw [h] at hc
      exact absurd hc (List.not_mem_nil c)
    | inr h =>
      rw [h] at hc
      exact check_encoding_calls files det hws c hc
  rcases hsub with ⟨f, hf, hcf⟩
  refine ⟨f, hf, hcf, ?_⟩
  rw [hdir]
  exact hin f hf

/-- Witness for C7 on the directory holding `a.csv` with working set
`["a.csv"]` and a detector reporting `Shift_JIS`. -/
theorem c7_ordering_witness :
    ((∀ f ∈ (["a.csv"] : List String), f.data ≠ [] ∧ ∀ c ∈ f.data, pyWs c = false) ∧
      (∀ f ∈ (["a.csv"] : List String), (([("a.csv", "x")] : Dir).lookup f).isSome = true)) ∧
    ((run_passes [("a.csv", "x")] ["a.csv"]
        (fun _ => Except.ok (PyBytes.mk "Shift_JIS"))).dir = [("a.csv", "x")] ∧
      (∀ c ∈ (run_passes [("a.csv", "x")] ["a.csv"]
          (fun _ => Except.ok (PyBytes.mk "Shift_JIS"))).detCalls,
        ∃ f ∈ (["a.csv"] : List String), c = ["nkf", "-g", f] ∧
          (((run_passes [("a.csv", "x")] ["a.csv"]
              (fun _ => Except.ok (PyBytes.mk "Shift_JIS"))).dir).lookup f).isSome = true) ∧
      (run_passes [("a.csv", "x")] ["a.csv"]
        (fun _ => Except.ok (PyBytes.mk "Shift_JIS"))).convCalls = []) :=
  ⟨⟨by decide, by decide⟩,
    c7_ordering [("a.csv", "x")] ["a.csv"] (fun _ => Except.ok (PyBytes.mk "Shift_JIS"))
      (by decide) (by decide)⟩
